import Mathlib

/-!
Verification of the VPS seller portal backend (authentication/session module
and the VPS pricing endpoint) against its natural-language specification.

The TypeScript sources are shallowly embedded:
* JSON numbers are modelled as `Option ℚ` (`none` standing for `NaN`,
  which JavaScript arithmetic propagates without throwing);
* JWT signing/verification (the external `jsonwebtoken` library) is
  modelled by a `SignedToken` record carrying its payload, signing secret
  and absolute expiry; verification checks the signature (secret) first
  and only then the expiry, as `jsonwebtoken` does;
* bcrypt (external library) is modelled by a deterministic placeholder
  hash — only the boolean outcome of `comparePassword` matters to any
  claim;
* the TOTP digest of the external `speakeasy` library is a parameter
  `hotp : String → Int → Nat`; the ±`window` search of
  `speakeasy.totp.verify` is embedded faithfully;
* the database (Prisma) is a `World` record of user rows, session rows,
  the append-only audit log and the outbox of sent verification emails.
-/

namespace DevopsPortal

/-! ### JSON numbers and the pricing endpoint (src/backend/src/routes/vps.ts) -/

/-- JavaScript number arithmetic on possibly-undefined operands:
`undefined * 5` is `NaN`, modelled as `none`. -/
def jsMul (a : Option ℚ) (b : ℚ) : Option ℚ :=
  a.map (fun x => x * b)

/-- JavaScript `+` on possibly-NaN numbers: `NaN` propagates. -/
def jsAdd (a b : Option ℚ) : Option ℚ :=
  match a, b with
  | some x, some y => some (x + y)
  | _, _ => none

/-- `String.prototype.includes`: substring containment. -/
def containsSubstr (s sub : String) : Bool :=
  decide (sub.data <:+: s.data)

/-- `Number(x.toFixed(2))`: rounding to two decimal places.  (JavaScript
`toFixed` rounds to the nearest hundredth; on the nonnegative values the
endpoint produces, `round` has the same tie behaviour.) -/
def toFixed2 (x : ℚ) : ℚ :=
  (round (100 * x) : ℤ) / 100

/-- `NaN.toFixed(2)` is `"NaN"` and `Number("NaN")` is `NaN` again. -/
def jsToFixed2 (x : Option ℚ) : Option ℚ :=
  x.map toFixed2

/-- The request body of `POST /api/vps/calculate-price` as destructured by
the handler: each field may be absent (`undefined`). -/
structure RawBody where
  cpuCores : Option ℚ
  ramGb : Option ℚ
  storageGb : Option ℚ
  operatingSystem : Option String
deriving DecidableEq

/-- `operatingSystem.includes('Windows') ? 15 : 0` (vps.ts line 45). -/
def osSurcharge (os : String) : ℚ :=
  if containsSubstr os "Windows" then 15 else 0

structure PriceBreakdown where
  cpu : Option ℚ
  ram : Option ℚ
  storage : Option ℚ
  operatingSystem : Option ℚ
deriving DecidableEq

structure PriceData where
  totalPrice : Option ℚ
  breakdown : PriceBreakdown
deriving DecidableEq

/-- Outcome of the handler body: a JSON response, or a thrown runtime
exception (JavaScript `TypeError`). -/
inductive HandlerResult where
  | ok (data : PriceData)
  | thrown (msg : String)
deriving DecidableEq

/-- The `POST /api/vps/calculate-price` handler (vps.ts lines 39–61).
`cpuCores * 5`, `ramGb * 4`, `storageGb * 0.1` never throw (undefined
yields `NaN`), but `operatingSystem.includes('Windows')` throws a
`TypeError` when `operatingSystem` is `undefined`. -/
def calculatePrice (body : RawBody) : HandlerResult :=
  let cpuPrice := jsMul body.cpuCores 5
  let ramPrice := jsMul body.ramGb 4
  let storagePrice := jsMul body.storageGb (1/10)
  match body.operatingSystem with
  | none => .thrown "TypeError: Cannot read properties of undefined (reading includes)"
  | some os =>
    let osPrice : Option ℚ := some (osSurcharge os)
    let totalPrice := jsAdd (jsAdd (jsAdd cpuPrice ramPrice) storagePrice) osPrice
    .ok { totalPrice := jsToFixed2 totalPrice,
          breakdown := { cpu := cpuPrice, ram := ramPrice,
                         storage := storagePrice, operatingSystem := osPrice } }

theorem toFixed2_of_mul_int (q : ℚ) (m : ℤ) (h : 100 * q = (m : ℚ)) :
    toFixed2 q = q := by
  unfold toFixed2
  rw [h, round_intCast]
  rw [eq_comm, eq_div_iff (by norm_num : (100 : ℚ) ≠ 0)]
  linarith [h]

/-- C7: the price calculation is pure and deterministic; for integer-valued
configurations the total equals `cpuCores*5 + ramGb*4 + storageGb*0.1` plus
the Windows surcharge; and it is linear in each dimension — doubling
`storageGb` changes only the storage term of the breakdown. -/
theorem c7_price_pure_linear (c r s : ℚ) (os : String)
    (hc : ∃ n : ℤ, c = (n : ℚ)) (hr : ∃ n : ℤ, r = (n : ℚ))
    (hs : ∃ n : ℤ, s = (n : ℚ)) :
    calculatePrice ⟨some c, some r, some s, some os⟩ =
      calculatePrice ⟨some c, some r, some s, some os⟩
    ∧ calculatePrice ⟨some c, some r, some s, some os⟩ =
        HandlerResult.ok ⟨some (c * 5 + r * 4 + s * (1/10) + osSurcharge os),
          ⟨some (c * 5), some (r * 4), some (s * (1/10)), some (osSurcharge os)⟩⟩
    ∧ calculatePrice ⟨some c, some r, some (2 * s), some os⟩ =
        HandlerResult.ok ⟨some (c * 5 + r * 4 + (2 * s) * (1/10) + osSurcharge os),
          ⟨some (c * 5), some (r * 4), some ((2 * s) * (1/10)), some (osSurcharge os)⟩⟩
    ∧ (2 * s) * (1/10) = 2 * (s * (1/10)) := by
  obtain ⟨nc, rfl⟩ := hc
  obtain ⟨nr, rfl⟩ := hr
  obtain ⟨ns, rfl⟩ := hs
  obtain ⟨no, hno⟩ : ∃ no : ℤ, osSurcharge os = (no : ℚ) := by
    unfold osSurcharge
    cases containsSubstr os "Windows"
    · exact ⟨0, by norm_num⟩
    · exact ⟨15, by norm_num⟩
  refine ⟨rfl, ?_, ?_, by ring⟩
  · simp only [calculatePrice, jsMul, jsAdd, jsToFixed2, Option.map_some']
    have h100 : (100 : ℚ) * ((nc : ℚ) * 5 + (nr : ℚ) * 4 + (ns : ℚ) * (1/10) + osSurcharge os)
        = ((500 * nc + 400 * nr + 10 * ns + 100 * no : ℤ) : ℚ) := by
      rw [hno]; push_cast; ring
    rw [toFixed2_of_mul_int _ _ h100]
  · simp only [calculatePrice, jsMul, jsAdd, jsToFixed2, Option.map_some']
    have h100 : (100 : ℚ) * ((nc : ℚ) * 5 + (nr : ℚ) * 4 + (2 * (ns : ℚ)) * (1/10) + osSurcharge os)
        = ((500 * nc + 400 * nr + 20 * ns + 100 * no : ℤ) : ℚ) := by
      rw [hno]; push_cast; ring
    rw [toFixed2_of_mul_int _ _ h100]

/-- Witness for C7 at the configuration (1 core, 2 GB RAM, 10 GB storage,
Ubuntu). -/
theorem c7_price_pure_linear_witness :
    calculatePrice ⟨some 1, some 2, some 10, some "Ubuntu 22.04 LTS"⟩ =
      calculatePrice ⟨some 1, some 2, some 10, some "Ubuntu 22.04 LTS"⟩
    ∧ calculatePrice ⟨some 1, some 2, some 10, some "Ubuntu 22.04 LTS"⟩ =
        HandlerResult.ok ⟨some (1 * 5 + 2 * 4 + 10 * (1/10) + osSurcharge "Ubuntu 22.04 LTS"),
          ⟨some (1 * 5), some (2 * 4), some (10 * (1/10)), some (osSurcharge "Ubuntu 22.04 LTS")⟩⟩
    ∧ calculatePrice ⟨some 1, some 2, some (2 * 10), some "Ubuntu 22.04 LTS"⟩ =
        HandlerResult.ok ⟨some (1 * 5 + 2 * 4 + (2 * 10) * (1/10) + osSurcharge "Ubuntu 22.04 LTS"),
          ⟨some (1 * 5), some (2 * 4), some ((2 * 10) * (1/10)), some (osSurcharge "Ubuntu 22.04 LTS")⟩⟩
    ∧ ((2 : ℚ) * 10) * (1/10) = 2 * (10 * (1/10)) :=
  c7_price_pure_linear 1 2 10 "Ubuntu 22.04 LTS"
    ⟨1, by norm_num⟩ ⟨2, by norm_num⟩ ⟨10, by norm_num⟩

/-- C10: the public calculate-price endpoint performs no input validation:
on a body with `operatingSystem` absent, the evaluation of
`operatingSystem.includes('Windows')` throws, so the handler is not total
over all JSON request bodies and its error branch is reachable from the
public interface. -/
theorem c10_calculate_price_not_total :
    (⟨some 2, some 4, some 50, none⟩ : RawBody).operatingSystem = none
    ∧ calculatePrice ⟨some 2, some 4, some 50, none⟩ =
        HandlerResult.thrown "TypeError: Cannot read properties of undefined (reading includes)" :=
  ⟨rfl, rfl⟩

/-! ### JWT model (external `jsonwebtoken` library, as used by
src/backend/src/services/authService.ts) -/

/-- The payload signed into every token (`JWTPayload` in authService.ts). -/
structure JWTPayload where
  userId : String
  email : String
  role : String
deriving DecidableEq

/-- A signed JWT: its payload, the secret it was signed with, and its
absolute expiry instant (milliseconds). -/
structure SignedToken where
  payload : JWTPayload
  secret : String
  exp : Nat
deriving DecidableEq

inductive JwtResult where
  | ok (payload : JWTPayload)
  | expired
  | invalid
deriving DecidableEq

/-- `jwt.sign(payload, secret, \x7b expiresIn \x7d)`. -/
def jwtSign (payload : JWTPayload) (secret : String) (now ttlMs : Nat) : SignedToken :=
  ⟨payload, secret, now + ttlMs⟩

/-- `jwt.verify(token, secret)`: the signature is checked first (a token
signed with a different secret raises `JsonWebTokenError` regardless of
expiry), then the expiry (`TokenExpiredError` when `now ≥ exp`). -/
def jwtVerify (token : SignedToken) (secret : String) (now : Nat) : JwtResult :=
  if token.secret = secret then
    if token.exp ≤ now then .expired else .ok token.payload
  else .invalid

/-- `createError(message, statusCode)` of the error-handler middleware. -/
structure AppError where
  message : String
  status : Nat
deriving DecidableEq

/-- Environment configuration read by the `AuthService` constructor:
the two distinct signing secrets and the two TTLs (in milliseconds,
after `parseTimeToMs`). -/
structure AuthConfig where
  jwtSecret : String
  jwtRefreshSecret : String
  jwtExpiresInMs : Nat
  jwtRefreshExpiresInMs : Nat

structure AuthTokens where
  accessToken : SignedToken
  refreshToken : SignedToken
deriving DecidableEq

/-- `AuthService.generateTokens` (authService.ts lines 45–55). -/
def generateTokens (cfg : AuthConfig) (payload : JWTPayload) (now : Nat) : AuthTokens :=
  { accessToken := jwtSign payload cfg.jwtSecret now cfg.jwtExpiresInMs,
    refreshToken := jwtSign payload cfg.jwtRefreshSecret now cfg.jwtRefreshExpiresInMs }

/-- `AuthService.verifyAccessToken` (authService.ts lines 57–69). -/
def verifyAccessToken (cfg : AuthConfig) (token : SignedToken) (now : Nat) :
    Except AppError JWTPayload :=
  match jwtVerify token cfg.jwtSecret now with
  | .ok p => .ok p
  | .expired => .error ⟨"Access token expired", 401⟩
  | .invalid => .error ⟨"Invalid access token", 401⟩

/-- `AuthService.verifyRefreshToken` (authService.ts lines 71–83). -/
def verifyRefreshToken (cfg : AuthConfig) (token : SignedToken) (now : Nat) :
    Except AppError JWTPayload :=
  match jwtVerify token cfg.jwtRefreshSecret now with
  | .ok p => .ok p
  | .expired => .error ⟨"Refresh token expired", 401⟩
  | .invalid => .error ⟨"Invalid refresh token", 401⟩

/-- Model of the external bcrypt library: a deterministic placeholder hash.
Only the boolean outcome of `comparePassword` is relied on by any claim. -/
def hashPassword (password : String) : String :=
  "$2a$12$" ++ password

/-- `bcrypt.compare`: does the password match the stored hash. -/
def comparePassword (password hash : String) : Bool :=
  hashPassword password == hash

/-! ### TOTP (external `speakeasy` library, window logic embedded from
`AuthService.verify2FAToken`, authService.ts lines 159–166) -/

/-- The candidate counters `speakeasy.totp.verifyDelta` tries with
`window: 2`: counter−2 … counter+2. -/
def totpCandidates (counter : Int) : List Int :=
  (List.range 5).map (fun k : Nat => counter + (k : Int) - 2)

/-- `AuthService.verify2FAToken(secret, token)` with `window: 2`; the
HOTP digest of the library is the parameter `hotp`, `nowSec` is the Unix
time in seconds, and the TOTP step is the default 30 s. -/
def verify2FAToken (hotp : String → Int → Nat) (secret : String) (token : Nat)
    (nowSec : Nat) : Bool :=
  (totpCandidates ((nowSec : Int) / 30)).any (fun i => hotp secret i == token)

/-! ### Persistent state (Prisma database) -/

/-- A row of the `user` table. -/
structure User where
  id : String
  email : String
  passwordHash : String
  firstName : String
  lastName : String
  phoneNumber : Option String
  role : String
  status : String
  emailVerified : Bool
  twoFactorEnabled : Bool
  twoFactorSecret : Option String
  lastLoginAt : Option Nat
deriving DecidableEq

/-- A row of the `session` table. -/
structure Session where
  id : Nat
  userId : String
  token : SignedToken
  refreshToken : SignedToken
  expiresAt : Nat
  refreshExpiresAt : Nat
  ipAddress : Option String
  userAgent : Option String
deriving DecidableEq

/-- A row of the append-only `auditLog` table. -/
structure AuditEntry where
  userId : String
  action : String
  resourceType : String
  resourceId : String
  ipAddress : Option String
  userAgent : Option String
deriving DecidableEq

/-- The persistent world: database tables, the outbox of verification
emails, and fresh-id counters. -/
structure World where
  users : List User
  sessions : List Session
  auditLog : List AuditEntry
  sentEmails : List (String × SignedToken)
  nextUserId : Nat
  nextSessionId : Nat
deriving DecidableEq

/-- `prisma.user.update` on one user id. -/
def updateUser (w : World) (id : String) (f : User → User) : World :=
  { w with users := w.users.map (fun u => if u.id == id then f u else u) }

/-- `prisma.auditLog.create`. -/
def addAudit (w : World) (e : AuditEntry) : World :=
  { w with auditLog := w.auditLog ++ [e] }

/-- `AuthService.storeSession` (authService.ts lines 85–101): inserts one
session row whose expiries are `now` plus the configured TTLs. -/
def storeSession (cfg : AuthConfig) (userId : String) (tokens : AuthTokens)
    (ipAddress userAgent : Option String) (now : Nat) (w : World) : World :=
  { w with
    sessions := w.sessions ++
      [⟨w.nextSessionId, userId, tokens.accessToken, tokens.refreshToken,
        now + cfg.jwtExpiresInMs, now + cfg.jwtRefreshExpiresInMs, ipAddress, userAgent⟩],
    nextSessionId := w.nextSessionId + 1 }

/-- `AuthService.refreshSession` (authService.ts lines 103–133): verify the
refresh JWT, look up the session row by refresh token, reject a missing or
expired row with `Session expired` (401), reject a non-ACTIVE owner, then
rotate: delete the old row, sign fresh tokens, insert a new row. -/
def refreshSession (cfg : AuthConfig) (refreshToken : SignedToken) (now : Nat)
    (w : World) : World × Except AppError AuthTokens :=
  match verifyRefreshToken cfg refreshToken now with
  | .error e => (w, .error e)
  | .ok payload =>
    match w.sessions.find? (fun s => s.refreshToken == refreshToken) with
    | none => (w, .error ⟨"Session expired", 401⟩)
    | some session =>
      if session.refreshExpiresAt < now then (w, .error ⟨"Session expired", 401⟩)
      else
        match w.users.find? (fun u => u.id == session.userId) with
        | none => (w, .error ⟨"TypeError: session.user is null", 500⟩)
        | some user =>
          if user.status ≠ "ACTIVE" then (w, .error ⟨"Account is not active", 401⟩)
          else
            let w1 := { w with sessions := w.sessions.filter (fun s => s.id != session.id) }
            let newTokens := generateTokens cfg ⟨payload.userId, payload.email, payload.role⟩ now
            (storeSession cfg payload.userId newTokens none none now w1, .ok newTokens)

/-! ### Controllers (src/backend/src/controllers/authController.ts) -/

/-- The subset of user fields returned by the login response
(`userResponse`, authController.ts lines 139–149). -/
structure UserResponse where
  id : String
  email : String
  firstName : String
  lastName : String
  role : String
  status : String
  emailVerified : Bool
  twoFactorEnabled : Bool
  lastLoginAt : Option Nat
deriving DecidableEq

def toUserResponse (u : User) : UserResponse :=
  ⟨u.id, u.email, u.firstName, u.lastName, u.role, u.status,
   u.emailVerified, u.twoFactorEnabled, u.lastLoginAt⟩

structure RegisterInput where
  email : String
  password : String
  firstName : String
  lastName : String
  phoneNumber : Option String

inductive RegisterResult where
  | err (e : AppError)
  | created (user : User)
deriving DecidableEq

/-- `register` (authController.ts lines 8–80): reject a duplicate email
with 409; otherwise create the user (role CUSTOMER, status PENDING), sign
a verification token, send the verification email, and append one audit
entry. -/
def register (cfg : AuthConfig) (input : RegisterInput)
    (reqIp reqUserAgent : Option String) (now : Nat) (w : World) :
    World × RegisterResult :=
  match w.users.find? (fun u => u.email == input.email) with
  | some _ => (w, .err ⟨"A user with this email already exists", 409⟩)
  | none =>
    let passwordHash := hashPassword input.password
    let user : User :=
      ⟨toString w.nextUserId, input.email, passwordHash, input.firstName,
       input.lastName, input.phoneNumber, "CUSTOMER", "PENDING",
       false, false, none, none⟩
    let w1 := { w with users := w.users ++ [user], nextUserId := w.nextUserId + 1 }
    let verificationToken := (generateTokens cfg ⟨user.id, user.email, user.role⟩ now).accessToken
    let w2 := { w1 with sentEmails := w1.sentEmails ++ [(user.email, verificationToken)] }
    (addAudit w2 ⟨user.id, "USER_REGISTERED", "USER", user.id, reqIp, reqUserAgent⟩,
     .created user)

structure LoginInput where
  email : String
  password : String
  rememberMe : Bool

inductive LoginResult where
  | err (e : AppError)
  | requires2FA (user : UserResponse) (tempToken : SignedToken)
  | ok (user : UserResponse) (tokens : AuthTokens)
deriving DecidableEq

/-- `login` (authController.ts lines 82–177): look up by email, compare
the password, reject SUSPENDED (403) and TERMINATED (403); then sign
tokens, store a session row, update `lastLoginAt`, append one audit
entry; finally answer `requires2FA` with the access token as temp token
when `twoFactorEnabled`, and the full token pair otherwise. -/
def login (cfg : AuthConfig) (input : LoginInput)
    (reqIp reqUserAgent : Option String) (now : Nat) (w : World) :
    World × LoginResult :=
  match w.users.find? (fun u => u.email == input.email) with
  | none => (w, .err ⟨"Invalid email or password", 401⟩)
  | some user =>
    if !comparePassword input.password user.passwordHash then
      (w, .err ⟨"Invalid email or password", 401⟩)
    else if user.status == "SUSPENDED" then
      (w, .err ⟨"Account has been suspended", 403⟩)
    else if user.status == "TERMINATED" then
      (w, .err ⟨"Account has been terminated", 403⟩)
    else
      let tokens := generateTokens cfg ⟨user.id, user.email, user.role⟩ now
      let w1 := storeSession cfg user.id tokens reqIp reqUserAgent now w
      let w2 := updateUser w1 user.id (fun u => { u with lastLoginAt := some now })
      let w3 := addAudit w2 ⟨user.id, "USER_LOGIN", "USER", user.id, reqIp, reqUserAgent⟩
      if user.twoFactorEnabled then
        (w3, .requires2FA (toUserResponse user) tokens.accessToken)
      else
        (w3, .ok (toUserResponse user) tokens)

structure Verify2FAInput where
  token : Nat
  tempToken : SignedToken

inductive Verify2FAResult where
  | err (e : AppError)
  | ok (user : User) (tokens : AuthTokens)
deriving DecidableEq

/-- `verify2FA` (authController.ts lines 179–251): verify the temp token
as an access token, load the user and their TOTP secret, check the TOTP
code, then sign final tokens, store a session row and append one audit
entry.  Note: the controller performs no account-status check. -/
def verify2FA (cfg : AuthConfig) (hotp : String → Int → Nat)
    (input : Verify2FAInput) (reqIp reqUserAgent : Option String)
    (now nowSec : Nat) (w : World) : World × Verify2FAResult :=
  match verifyAccessToken cfg input.tempToken now with
  | .error _ => (w, .err ⟨"Invalid or expired temporary token", 401⟩)
  | .ok payload =>
    match w.users.find? (fun u => u.id == payload.userId) with
    | none => (w, .err ⟨"2FA not set up for this account", 400⟩)
    | some user =>
      match user.twoFactorSecret with
      | none => (w, .err ⟨"2FA not set up for this account", 400⟩)
      | some secret =>
        if !verify2FAToken hotp secret input.token nowSec then
          (w, .err ⟨"Invalid 2FA code", 401⟩)
        else
          let tokens := generateTokens cfg ⟨user.id, user.email, user.role⟩ now
          let w1 := storeSession cfg user.id tokens reqIp reqUserAgent now w
          (addAudit w1 ⟨user.id, "2FA_VERIFIED", "USER", user.id, reqIp, reqUserAgent⟩,
           .ok user tokens)

inductive VerifyEmailResult where
  | err (e : AppError)
  | ok (message : String)
deriving DecidableEq

/-- `verifyEmail` (authController.ts lines 300–349): verify the token,
load the user; if already verified answer success without touching the
row; otherwise set `emailVerified` and status ACTIVE and append one audit
entry. -/
def verifyEmail (cfg : AuthConfig) (token : SignedToken)
    (reqIp reqUserAgent : Option String) (now : Nat) (w : World) :
    World × VerifyEmailResult :=
  match verifyAccessToken cfg token now with
  | .error e => (w, .err e)
  | .ok payload =>
    match w.users.find? (fun u => u.id == payload.userId) with
    | none => (w, .err ⟨"Invalid verification token", 400⟩)
    | some user =>
      if user.emailVerified then (w, .ok "Email already verified")
      else
        let w1 := updateUser w user.id
          (fun u => { u with emailVerified := true, status := "ACTIVE" })
        (addAudit w1 ⟨user.id, "EMAIL_VERIFIED", "USER", user.id, reqIp, reqUserAgent⟩,
         .ok "Email verified successfully")

/-! ### Authentication middleware (src/unnamed/part_004, `authenticate`) -/

structure AuthUser where
  id : String
  email : String
  role : String
  status : String
deriving DecidableEq

inductive AuthOutcome where
  | proceed (user : AuthUser)
  | fail (e : AppError)
  | jwtError (r : JwtResult)
deriving DecidableEq

/-- The `authenticate` middleware: extract the bearer token, verify it
with `JWT_SECRET` (a raw `jwt` failure is forwarded to the error handler
as thrown), look up the user, then require `status == 'active'` — the
literal lowercase string the source compares against — and
`emailVerified`, and attach `\x7bid, email, role, status\x7d`. -/
def authenticate (cfg : AuthConfig) (bearer : Option SignedToken) (now : Nat)
    (w : World) : AuthOutcome :=
  match bearer with
  | none => .fail ⟨"Access token required", 401⟩
  | some token =>
    match jwtVerify token cfg.jwtSecret now with
    | .expired => .jwtError .expired
    | .invalid => .jwtError .invalid
    | .ok decoded =>
      match w.users.find? (fun u => u.id == decoded.userId) with
      | none => .fail ⟨"User not found", 401⟩
      | some user =>
        if user.status ≠ "active" then .fail ⟨"Account is not active", 401⟩
        else if !user.emailVerified then .fail ⟨"Email not verified", 401⟩
        else .proceed ⟨user.id, user.email, user.role, user.status⟩

/-! ### Concrete fixtures used by witnesses and counterexamples -/

/-- A configuration with the two distinct secrets and the default TTLs
(15 minutes and 7 days, in milliseconds). -/
def cfg0 : AuthConfig := ⟨"access-secret", "refresh-secret", 900000, 604800000⟩

/-- A freshly registered user: status PENDING, email not verified. -/
def alice : User :=
  ⟨"u1", "a@x.com", hashPassword "Passw0rd!", "Alice", "Smith", none,
   "CUSTOMER", "PENDING", false, false, none, none⟩

/-- A user who completed email verification: status ACTIVE. -/
def aliceActive : User :=
  ⟨"u1", "a@x.com", hashPassword "Passw0rd!", "Alice", "Smith", none,
   "CUSTOMER", "ACTIVE", true, false, none, none⟩

/-- A suspended user. -/
def sueSuspended : User :=
  ⟨"u2", "s@x.com", hashPassword "pw", "Sue", "Jones", none,
   "CUSTOMER", "SUSPENDED", true, false, none, none⟩

/-- A suspended user with TOTP enrolled. -/
def tiaSuspended2FA : User :=
  ⟨"u3", "t@x.com", hashPassword "pw", "Tia", "Lee", none,
   "CUSTOMER", "SUSPENDED", true, true, some "SECRET", none⟩

/-- An active user with TOTP enrolled. -/
def bea2FA : User :=
  ⟨"u4", "b@x.com", hashPassword "pw", "Bea", "Kim", none,
   "CUSTOMER", "ACTIVE", true, true, some "SECRET", none⟩

/-- A concrete stand-in for the HOTP digest of the speakeasy library. -/
def hotpW : String → Int → Nat := fun _ i => i.natAbs

/-! ### C5: access/refresh secrets are not interchangeable -/

/-- C5: assuming the access-token secret and the refresh-token secret are
distinct, the refresh token produced by `generateTokens` is rejected by
`verifyAccessToken` with the InvalidToken error, at every verification
time. -/
theorem c5_cross_verification_fails (cfg : AuthConfig) (payload : JWTPayload)
    (now now2 : Nat) (h : cfg.jwtSecret ≠ cfg.jwtRefreshSecret) :
    verifyAccessToken cfg (generateTokens cfg payload now).refreshToken now2 =
      .error ⟨"Invalid access token", 401⟩ := by
  have h2 : cfg.jwtRefreshSecret ≠ cfg.jwtSecret := fun hEq => h hEq.symm
  simp [verifyAccessToken, generateTokens, jwtSign, jwtVerify, h2]

/-- Witness for C5 at the concrete configuration `cfg0`. -/
theorem c5_cross_verification_fails_witness :
    verifyAccessToken cfg0 (generateTokens cfg0 ⟨"u1", "a@x.com", "CUSTOMER"⟩ 0).refreshToken 0 =
      .error ⟨"Invalid access token", 401⟩ :=
  c5_cross_verification_fails cfg0 ⟨"u1", "a@x.com", "CUSTOMER"⟩ 0 0 (by decide)

/-! ### C8: duplicate registration -/

/-- C8: when the email already belongs to an existing user, `register`
fails with the 409 conflict error and the world is returned unchanged:
no user row, no verification email and no audit entry are produced, and
the existing user row is untouched. -/
theorem c8_register_duplicate_email (cfg : AuthConfig) (input : RegisterInput)
    (ip ua : Option String) (now : Nat) (w : World)
    (h : ∃ u ∈ w.users, u.email = input.email) :
    register cfg input ip ua now w =
      (w, .err ⟨"A user with this email already exists", 409⟩) := by
  obtain ⟨u, hu, he⟩ := h
  obtain ⟨v, hv⟩ : ∃ v, w.users.find? (fun x => x.email == input.email) = some v := by
    rw [← Option.isSome_iff_exists, List.find?_isSome]
    exact ⟨u, hu, by simp [he]⟩
  simp [register, hv]

/-- Witness for C8: re-registering `alice`'s email fails with 409 and
leaves the world unchanged. -/
theorem c8_register_duplicate_email_witness :
    register cfg0 ⟨"a@x.com", "pw2", "Bob", "Jones", none⟩ none none 0
        ⟨[alice], [], [], [], 2, 0⟩ =
      (⟨[alice], [], [], [], 2, 0⟩, .err ⟨"A user with this email already exists", 409⟩) :=
  c8_register_duplicate_email cfg0 ⟨"a@x.com", "pw2", "Bob", "Jones", none⟩
    none none 0 ⟨[alice], [], [], [], 2, 0⟩ ⟨alice, by simp, rfl⟩

/-! ### C9: verify-email is idempotent -/

/-- C9: for a user whose `emailVerified` flag is already set, a
verify-email call with a valid token for that user answers success and
leaves the world — in particular the user row, its status and
`emailVerified` — exactly unchanged, so a second verification leaves the
state as the first left it. -/
theorem c9_verify_email_idempotent (cfg : AuthConfig) (token : SignedToken)
    (ip ua : Option String) (now : Nat) (w : World) (p : JWTPayload) (u : User)
    (hv : verifyAccessToken cfg token now = .ok p)
    (hfind : w.users.find? (fun x => x.id == p.userId) = some u)
    (hver : u.emailVerified = true) :
    verifyEmail cfg token ip ua now w = (w, .ok "Email already verified") := by
  simp [verifyEmail, hv, hfind, hver]

/-- Witness for C9 on an already-verified user. -/
theorem c9_verify_email_idempotent_witness :
    verifyEmail cfg0 (jwtSign ⟨"u1", "a@x.com", "CUSTOMER"⟩ "access-secret" 0 900000)
        none none 10 ⟨[aliceActive], [], [], [], 2, 0⟩ =
      (⟨[aliceActive], [], [], [], 2, 0⟩, .ok "Email already verified") :=
  c9_verify_email_idempotent cfg0
    (jwtSign ⟨"u1", "a@x.com", "CUSTOMER"⟩ "access-secret" 0 900000)
    none none 10 ⟨[aliceActive], [], [], [], 2, 0⟩
    ⟨"u1", "a@x.com", "CUSTOMER"⟩ aliceActive rfl rfl rfl

/-! ### C2: the authenticate middleware -/

/-- C2: the middleware compares the account status against the lowercase
literal `'active'`, while every status value the rest of the code stores
is uppercase (`'ACTIVE'` is set by verifyEmail); so a user whose status
is `'ACTIVE'` with a verified email and a valid access token is rejected
with `Account is not active` instead of proceeding. -/
theorem c2_authenticate_rejects_active_user :
    aliceActive.status = "ACTIVE"
    ∧ aliceActive.emailVerified = true
    ∧ authenticate cfg0
        (some (jwtSign ⟨"u1", "a@x.com", "CUSTOMER"⟩ "access-secret" 0 900000)) 10
        ⟨[aliceActive], [], [], [], 2, 0⟩ =
      .fail ⟨"Account is not active", 401⟩ :=
  ⟨rfl, rfl, rfl⟩

/-! ### C6: TOTP acceptance window -/

/-- C6: `verify2FAToken` accepts the code generated at time `t0` whenever
the check time `t` is within ±2 TOTP steps (in particular within ±60
seconds of `t0`), and rejects when the generation counter lies outside the
5-counter window (given that the digest does not collide with any counter
of the window); each step is the default 30 s. -/
theorem c6_totp_window (hotp : String → Int → Nat) (secret : String) (t0 t : Nat) :
    (((t : Int) / 30 - (t0 : Int) / 30).natAbs ≤ 2 →
      verify2FAToken hotp secret (hotp secret ((t0 : Int) / 30)) t = true)
    ∧ (((t : Int) - (t0 : Int)).natAbs ≤ 60 →
      verify2FAToken hotp secret (hotp secret ((t0 : Int) / 30)) t = true)
    ∧ ((∀ i ∈ totpCandidates ((t : Int) / 30), hotp secret i ≠ hotp secret ((t0 : Int) / 30)) →
      verify2FAToken hotp secret (hotp secret ((t0 : Int) / 30)) t = false) := by
  have accept : ((t : Int) / 30 - (t0 : Int) / 30).natAbs ≤ 2 →
      verify2FAToken hotp secret (hotp secret ((t0 : Int) / 30)) t = true := by
    intro h
    unfold verify2FAToken
    rw [List.any_eq_true]
    refine ⟨(t0 : Int) / 30, ?_, by simp⟩
    unfold totpCandidates
    rw [List.mem_map]
    refine ⟨((t0 : Int) / 30 - (t : Int) / 30 + 2).toNat,
      List.mem_range.mpr ?_, ?_⟩ <;> omega
  refine ⟨accept, ?_, ?_⟩
  · intro h60
    exact accept (by omega)
  · intro hno
    unfold verify2FAToken
    rw [List.any_eq_false]
    intro i hi
    simp only [beq_iff_eq]
    exact hno i hi

/-- Witness for C6: the code of counter 10 (t0 = 300 s) is accepted at
t = 360 s (counter 12, drift two steps) and rejected at t = 450 s
(counter 15, outside the window). -/
theorem c6_totp_window_witness :
    verify2FAToken hotpW "SECRET" (hotpW "SECRET" ((300 : Int) / 30)) 360 = true
    ∧ verify2FAToken hotpW "SECRET" (hotpW "SECRET" ((300 : Int) / 30)) 450 = false :=
  ⟨(c6_totp_window hotpW "SECRET" 300 360).1 (by decide),
   (c6_totp_window hotpW "SECRET" 300 450).2.2 (by decide)⟩

/-! ### C3: refresh failure modes -/

/-- C3: given that the presented refresh token itself verifies,
`refreshSession` fails with the `Session expired` error exactly when no
session row exists for that refresh token (as after a prior rotation of
the same token) or when the row's `refreshExpiresAt` is in the past; and
on such a failure the world is unchanged — no session row is created or
deleted. -/
theorem c3_refresh_session_expired (cfg : AuthConfig) (rt : SignedToken)
    (now : Nat) (w : World) (p : JWTPayload)
    (hv : verifyRefreshToken cfg rt now = .ok p) :
    ((refreshSession cfg rt now w).2 = .error ⟨"Session expired", 401⟩ ↔
      (w.sessions.find? (fun s => s.refreshToken == rt) = none ∨
        ∃ s, w.sessions.find? (fun s2 => s2.refreshToken == rt) = some s ∧
          s.refreshExpiresAt < now))
    ∧ ((refreshSession cfg rt now w).2 = .error ⟨"Session expired", 401⟩ →
      (refreshSession cfg rt now w).1 = w) := by
  cases hfind : w.sessions.find? (fun s => s.refreshToken == rt) with
  | none =>
    constructor
    · simp [refreshSession, hv, hfind]
    · intro _
      simp [refreshSession, hv, hfind]
  | some s =>
    by_cases hexp : s.refreshExpiresAt < now
    · constructor
      · constructor
        · intro _
          exact Or.inr ⟨s, rfl, hexp⟩
        · intro _
          simp [refreshSession, hv, hfind, hexp]
      · intro _
        simp [refreshSession, hv, hfind, hexp]
    · have hne : (refreshSession cfg rt now w).2 ≠ .error ⟨"Session expired", 401⟩ := by
        cases huser : w.users.find? (fun u => u.id == s.userId) with
        | none =>
          simp [refreshSession, hv, hfind, hexp, huser]
        | some user =>
          by_cases hst : user.status = "ACTIVE"
          · simp [refreshSession, hv, hfind, hexp, huser, hst]
          · simp [refreshSession, hv, hfind, hexp, huser, hst]
      constructor
      · constructor
        · intro hcontra
          exact absurd hcontra hne
        · intro hrhs
          rcases hrhs with hnone | ⟨s2, hs2, hs2exp⟩
          · exact absurd hnone (by simp)
          · injection hs2 with hs2e
            subst hs2e
            exact absurd hs2exp hexp
      · intro hcontra
        exact absurd hcontra hne

/-- Witness for C3: with no session rows at all, a syntactically valid
refresh token is refused with `Session expired` and the world is
unchanged. -/
theorem c3_refresh_session_expired_witness :
    ((refreshSession cfg0 (jwtSign ⟨"u1", "a@x.com", "CUSTOMER"⟩ "refresh-secret" 0 604800000) 10
        ⟨[aliceActive], [], [], [], 2, 0⟩).2 = .error ⟨"Session expired", 401⟩ ↔
      ((⟨[aliceActive], [], [], [], 2, 0⟩ : World).sessions.find?
          (fun s => s.refreshToken == jwtSign ⟨"u1", "a@x.com", "CUSTOMER"⟩ "refresh-secret" 0 604800000) = none ∨
        ∃ s, (⟨[aliceActive], [], [], [], 2, 0⟩ : World).sessions.find?
            (fun s2 => s2.refreshToken == jwtSign ⟨"u1", "a@x.com", "CUSTOMER"⟩ "refresh-secret" 0 604800000) = some s ∧
          s.refreshExpiresAt < 10))
    ∧ ((refreshSession cfg0 (jwtSign ⟨"u1", "a@x.com", "CUSTOMER"⟩ "refresh-secret" 0 604800000) 10
        ⟨[aliceActive], [], [], [], 2, 0⟩).2 = .error ⟨"Session expired", 401⟩ →
      (refreshSession cfg0 (jwtSign ⟨"u1", "a@x.com", "CUSTOMER"⟩ "refresh-secret" 0 604800000) 10
        ⟨[aliceActive], [], [], [], 2, 0⟩).1 = ⟨[aliceActive], [], [], [], 2, 0⟩) :=
  c3_refresh_session_expired cfg0
    (jwtSign ⟨"u1", "a@x.com", "CUSTOMER"⟩ "refresh-secret" 0 604800000) 10
    ⟨[aliceActive], [], [], [], 2, 0⟩ ⟨"u1", "a@x.com", "CUSTOMER"⟩ rfl

/-! ### C1: account-status gating at login and 2FA verification -/

/-- C1 counterexample: a user whose status is PENDING — hence not ACTIVE —
completes login with correct credentials and is issued a token pair, so
the claim that every non-ACTIVE status makes the session-lifecycle
transitions fail is false on the code. -/
theorem c1_counterexample :
    alice.status = "PENDING"
    ∧ alice.status ≠ "ACTIVE"
    ∧ (login cfg0 ⟨"a@x.com", "Passw0rd!", false⟩ none none 0
        ⟨[alice], [], [], [], 2, 0⟩).2 =
      LoginResult.ok (toUserResponse alice)
        (generateTokens cfg0 ⟨"u1", "a@x.com", "CUSTOMER"⟩ 0) :=
  ⟨rfl, by decide, rfl⟩

/-- C1 amended: with valid credentials, login fails with a 403 error
exactly for the statuses SUSPENDED and TERMINATED (a PENDING account
completes login and is issued tokens), and `verify2FA` performs no
account-status check at all: with a valid temp token and a valid TOTP
code it issues tokens whatever the account status is. -/
theorem c1_status_gating (cfg : AuthConfig) (input : LoginInput)
    (ip ua : Option String) (now : Nat) (w : World) (u : User)
    (hfind : w.users.find? (fun x => x.email == input.email) = some u)
    (hpw : comparePassword input.password u.passwordHash = true) :
    (u.status = "SUSPENDED" →
      login cfg input ip ua now w = (w, .err ⟨"Account has been suspended", 403⟩))
    ∧ (u.status = "TERMINATED" →
      login cfg input ip ua now w = (w, .err ⟨"Account has been terminated", 403⟩))
    ∧ (u.status = "PENDING" → (login cfg input ip ua now w).2 =
        (if u.twoFactorEnabled then
          LoginResult.requires2FA (toUserResponse u)
            (generateTokens cfg ⟨u.id, u.email, u.role⟩ now).accessToken
        else
          LoginResult.ok (toUserResponse u) (generateTokens cfg ⟨u.id, u.email, u.role⟩ now)))
    ∧ (∀ (hotp : String → Int → Nat) (input2 : Verify2FAInput) (nowSec : Nat)
        (w2 : World) (u2 : User) (secret : String) (p : JWTPayload),
        verifyAccessToken cfg input2.tempToken now = .ok p →
        w2.users.find? (fun x => x.id == p.userId) = some u2 →
        u2.twoFactorSecret = some secret →
        verify2FAToken hotp secret input2.token nowSec = true →
        (verify2FA cfg hotp input2 ip ua now nowSec w2).2 =
          .ok u2 (generateTokens cfg ⟨u2.id, u2.email, u2.role⟩ now)) := by
  refine ⟨?_, ?_, ?_, ?_⟩
  · intro hst
    simp [login, hfind, hpw, hst]
  · intro hst
    simp [login, hfind, hpw, hst]
  · intro hst
    cases h2 : u.twoFactorEnabled <;> simp [login, hfind, hpw, hst, h2]
  · intro hotp input2 nowSec w2 u2 secret p hv2 hfind2 hsec htotp
    simp [verify2FA, hv2, hfind2, hsec, htotp]

/-- Witness for C1's amended statement: a SUSPENDED user is refused with
403, a PENDING user completes login, and a SUSPENDED user with a valid
temp token and TOTP code completes `verify2FA`. -/
theorem c1_status_gating_witness :
    (login cfg0 ⟨"s@x.com", "pw", false⟩ none none 0
        ⟨[sueSuspended], [], [], [], 3, 0⟩ =
      (⟨[sueSuspended], [], [], [], 3, 0⟩, .err ⟨"Account has been suspended", 403⟩))
    ∧ ((login cfg0 ⟨"a@x.com", "Passw0rd!", false⟩ none none 0
        ⟨[alice], [], [], [], 2, 0⟩).2 =
        (if alice.twoFactorEnabled then
          LoginResult.requires2FA (toUserResponse alice)
            (generateTokens cfg0 ⟨alice.id, alice.email, alice.role⟩ 0).accessToken
        else
          LoginResult.ok (toUserResponse alice)
            (generateTokens cfg0 ⟨alice.id, alice.email, alice.role⟩ 0)))
    ∧ ((verify2FA cfg0 hotpW
          ⟨2, jwtSign ⟨"u3", "t@x.com", "CUSTOMER"⟩ "access-secret" 0 900000⟩
          none none 10 60 ⟨[tiaSuspended2FA], [], [], [], 4, 0⟩).2 =
        .ok tiaSuspended2FA
          (generateTokens cfg0 ⟨tiaSuspended2FA.id, tiaSuspended2FA.email, tiaSuspended2FA.role⟩ 10)) :=
  ⟨(c1_status_gating cfg0 ⟨"s@x.com", "pw", false⟩ none none 0
      ⟨[sueSuspended], [], [], [], 3, 0⟩ sueSuspended rfl rfl).1 rfl,
   (c1_status_gating cfg0 ⟨"a@x.com", "Passw0rd!", false⟩ none none 0
      ⟨[alice], [], [], [], 2, 0⟩ alice rfl rfl).2.2.1 rfl,
   (c1_status_gating cfg0 ⟨"t@x.com", "pw", false⟩ none none 10
      ⟨[tiaSuspended2FA], [], [], [], 4, 0⟩ tiaSuspended2FA rfl rfl).2.2.2
     hotpW ⟨2, jwtSign ⟨"u3", "t@x.com", "CUSTOMER"⟩ "access-secret" 0 900000⟩ 60
     ⟨[tiaSuspended2FA], [], [], [], 4, 0⟩ tiaSuspended2FA "SECRET"
     ⟨"u3", "t@x.com", "CUSTOMER"⟩ rfl rfl rfl (by decide)⟩

/-! ### C4: login with 2FA enabled still persists a session -/

/-- C4 counterexample: for a 2FA-enabled user with valid credentials the
login response does carry `requires2FA` and a temp token, but — contrary
to the claim — the login itself persists a session row (the claim says a
Session is created only when verify-2fa later succeeds). -/
theorem c4_counterexample :
    (login cfg0 ⟨"b@x.com", "pw", false⟩ none none 0
        ⟨[bea2FA], [], [], [], 5, 0⟩).2 =
      LoginResult.requires2FA (toUserResponse bea2FA)
        (generateTokens cfg0 ⟨"u4", "b@x.com", "CUSTOMER"⟩ 0).accessToken
    ∧ (login cfg0 ⟨"b@x.com", "pw", false⟩ none none 0
        ⟨[bea2FA], [], [], [], 5, 0⟩).1.sessions.length = 1 :=
  ⟨rfl, rfl⟩

/-- C4 amended: for every login with valid credentials by a 2FA-enabled
user (not suspended or terminated), the response carries `requires2FA`
with the access token as temp token, and the login itself persists a
session row holding that token pair — `storeSession` runs before the 2FA
branch, so a Session is created at login and `verify2FA` later creates a
second one. -/
theorem c4_login_2fa_stores_session (cfg : AuthConfig) (input : LoginInput)
    (ip ua : Option String) (now : Nat) (w : World) (u : User)
    (hfind : w.users.find? (fun x => x.email == input.email) = some u)
    (hpw : comparePassword input.password u.passwordHash = true)
    (hs1 : u.status ≠ "SUSPENDED") (hs2 : u.status ≠ "TERMINATED")
    (h2fa : u.twoFactorEnabled = true) :
    (login cfg input ip ua now w).2 =
      LoginResult.requires2FA (toUserResponse u)
        (generateTokens cfg ⟨u.id, u.email, u.role⟩ now).accessToken
    ∧ (login cfg input ip ua now w).1.sessions =
      w.sessions ++
        [⟨w.nextSessionId, u.id,
          (generateTokens cfg ⟨u.id, u.email, u.role⟩ now).accessToken,
          (generateTokens cfg ⟨u.id, u.email, u.role⟩ now).refreshToken,
          now + cfg.jwtExpiresInMs, now + cfg.jwtRefreshExpiresInMs, ip, ua⟩] := by
  have hb1 : (u.status == "SUSPENDED") = false := beq_eq_false_iff_ne.mpr hs1
  have hb2 : (u.status == "TERMINATED") = false := beq_eq_false_iff_ne.mpr hs2
  constructor
  · simp [login, hfind, hpw, hb1, hb2, h2fa]
  · simp [login, hfind, hpw, hb1, hb2, h2fa, storeSession, updateUser, addAudit]

/-- Witness for C4's amended statement on the 2FA user `bea2FA`. -/
theorem c4_login_2fa_stores_session_witness :
    (login cfg0 ⟨"b@x.com", "pw", false⟩ none none 0
        ⟨[bea2FA], [], [], [], 5, 0⟩).2 =
      LoginResult.requires2FA (toUserResponse bea2FA)
        (generateTokens cfg0 ⟨bea2FA.id, bea2FA.email, bea2FA.role⟩ 0).accessToken
    ∧ (login cfg0 ⟨"b@x.com", "pw", false⟩ none none 0
        ⟨[bea2FA], [], [], [], 5, 0⟩).1.sessions =
      (⟨[bea2FA], [], [], [], 5, 0⟩ : World).sessions ++
        [⟨(⟨[bea2FA], [], [], [], 5, 0⟩ : World).nextSessionId, bea2FA.id,
          (generateTokens cfg0 ⟨bea2FA.id, bea2FA.email, bea2FA.role⟩ 0).accessToken,
          (generateTokens cfg0 ⟨bea2FA.id, bea2FA.email, bea2FA.role⟩ 0).refreshToken,
          0 + cfg0.jwtExpiresInMs, 0 + cfg0.jwtRefreshExpiresInMs, none, none⟩] :=
  c4_login_2fa_stores_session cfg0 ⟨"b@x.com", "pw", false⟩ none none 0
    ⟨[bea2FA], [], [], [], 5, 0⟩ bea2FA rfl rfl (by decide) (by decide) rfl

end DevopsPortal
